import Mathlib

/-!
Shallow embedding of the authentication core: the session-state manager
(AuthService), the verification poller timers, the resend-cooldown state
machine of the verify-email component, and the route guards.

External collaborators (identity provider, Firestore document store) are
modelled as oracles: each operation takes the outcome of every external
call it performs as an explicit argument, and the Firestore "users"
collection is an association list carried in the state.
-/

/-- The persisted user record, mirroring the UserData interface.
Timestamps are modelled as natural numbers (serverTimestamp is an
opaque value supplied by the caller as a `now` parameter). -/
structure UserData where
  uid : String
  email : String
  displayName : String
  role : String
  createdAt : Nat
  lastLoginAt : Nat
  emailVerified : Bool
  photoURL : Option String
  provider : Option String
deriving DecidableEq, Repr

/-- The translated error value surfaced to callers. -/
structure AuthError where
  code : String
  message : String
deriving DecidableEq, Repr

/-- A raw JavaScript error thrown by a provider call; only its optional
code field is inspected by the translator. -/
structure JsError where
  code : Option String
deriving DecidableEq, Repr

/-- The provider-side identity object (Firebase User): fields read by the
service. Optional string fields model possibly-null JS values. -/
structure FirebaseUser where
  uid : String
  email : Option String
  displayName : Option String
  emailVerified : Bool
  photoURL : Option String
deriving DecidableEq, Repr

/-- Navigation targets issued by guards and flows. -/
inductive Nav where
  | verifyEmail
  | login (returnUrl : Option String)
  | dashboard
deriving DecidableEq, Repr

/-- JavaScript `a || d` on a possibly-absent string: the default is taken
when the value is absent or the empty string (both falsy). -/
def jsOr (a : Option String) (d : String) : String :=
  match a with
  | some s => if s = "" then d else s
  | none => d

/-- JavaScript `a || null` on a possibly-absent string. -/
def jsOrNull (a : Option String) : Option String :=
  match a with
  | some s => if s = "" then none else some s
  | none => none

/-- Fallback message of the error translator. -/
def genericMessage : String := "An unexpected error occurred. Please try again."

/-- Message half of handleAuthError: the switch over provider codes. -/
def authErrorMessage (code : Option String) : String :=
  if code = some "auth/user-not-found" then "No account found with this email address."
  else if code = some "auth/wrong-password" then "Incorrect password. Please try again."
  else if code = some "auth/email-already-in-use" then "An account with this email already exists."
  else if code = some "auth/weak-password" then "Password should be at least 6 characters long."
  else if code = some "auth/invalid-email" then "Please enter a valid email address."
  else if code = some "auth/user-disabled" then "This account has been disabled. Please contact support."
  else if code = some "auth/too-many-requests" then "Too many failed attempts. Please try again later."
  else if code = some "auth/network-request-failed" then "Network error. Please check your connection and try again."
  else if code = some "auth/popup-closed-by-user" then "Sign-in was cancelled. Please try again."
  else if code = some "auth/cancelled-popup-request" then "Only one popup request is allowed at a time."
  else genericMessage

/-- Code half of handleAuthError: `error.code || 'unknown'` (JS falsiness:
an absent or empty code yields "unknown"). -/
def authErrorCode (code : Option String) : String :=
  match code with
  | some c => if c = "" then "unknown" else c
  | none => "unknown"

/-- AuthService.handleAuthError: translate a raw provider error into an
AuthError. -/
def handleAuthError (e : JsError) : AuthError :=
  { code := authErrorCode e.code, message := authErrorMessage e.code }

/-- The provider failure codes enumerated by the translator's switch. -/
def mappedCodes : List String :=
  ["auth/user-not-found", "auth/wrong-password", "auth/email-already-in-use",
   "auth/weak-password", "auth/invalid-email", "auth/user-disabled",
   "auth/too-many-requests", "auth/network-request-failed",
   "auth/popup-closed-by-user", "auth/cancelled-popup-request"]

deriving instance DecidableEq for Except

/-- The Firestore "users" collection: uid-keyed association list. -/
def Directory : Type := List (String × UserData)

instance : DecidableEq Directory := by
  unfold Directory
  infer_instance

/-- getDoc on the users collection: first record with the given uid. -/
def dirGet : Directory → String → Option UserData
  | [], _ => none
  | p :: rest, uid => if p.1 = uid then some p.2 else dirGet rest uid

/-- setDoc on the users collection: overwrite (or create) the record. -/
def dirSet (dir : Directory) (uid : String) (ud : UserData) : Directory :=
  (uid, ud) :: (dir.filter (fun p => p.1 ≠ uid))

/-- The updateDoc patch performed by updateLastLogin: set lastLoginAt on
the record if present (a missing record makes updateDoc reject, which
updateLastLogin catches and swallows, leaving the collection unchanged). -/
def dirPatchLastLogin (dir : Directory) (uid : String) (now : Nat) : Directory :=
  dir.map (fun p => if p.1 = uid then (p.1, { p.2 with lastLoginAt := now }) else p)

/-- The updateDoc patch performed by checkEmailVerification: set
emailVerified := true on the record with the given uid. -/
def dirPatchVerified (dir : Directory) (uid : String) : Directory :=
  dir.map (fun p => if p.1 = uid then (p.1, { p.2 with emailVerified := true }) else p)

/-- updateDoc with the emailVerified patch: rejects when no record exists
for the uid (Firestore not-found), succeeds with the patched collection
otherwise. -/
def updateDocEmailVerified (dir : Directory) (uid : String) : Except String Directory :=
  if (dirGet dir uid).isSome then Except.ok (dirPatchVerified dir uid)
  else Except.error "not-found"

/-- AuthService.updateLastLogin: best-effort updateDoc whose failure
(modelled by the fails flag, covering both network failure and a missing
record) is caught and swallowed. -/
def updateLastLogin (fails : Bool) (dir : Directory) (uid : String) (now : Nat) : Directory :=
  if fails then dir else dirPatchLastLogin dir uid now

/-- Observable state of the AuthService: the published current session
(currentUserSubject value), the loading flag, and the users collection. -/
structure AuthState where
  currentUser : Option UserData
  loading : Bool
  directory : Directory
deriving DecidableEq

/-- Outcomes of the external calls made by signUp. -/
structure SignUpEnv where
  createResult : Except JsError FirebaseUser
  updateProfileResult : Except JsError Unit
  sendVerificationResult : Except JsError Unit
  saveResult : Except JsError Unit
deriving DecidableEq

/-- AuthService.signUp: create the credential, update the display name,
send the verification email, persist a fresh record (emailVerified=false,
provider="email", role "user"), publish it as the current session. Any
failure is translated by handleAuthError; the finally block leaves
loading=false on every path. -/
def signUp (env : SignUpEnv) (_email _password displayName : String) (now : Nat)
    (st : AuthState) : Except AuthError Unit × AuthState :=
  match env.createResult with
  | Except.error e => (Except.error (handleAuthError e), { st with loading := false })
  | Except.ok user =>
    match env.updateProfileResult with
    | Except.error e => (Except.error (handleAuthError e), { st with loading := false })
    | Except.ok _ =>
      match env.sendVerificationResult with
      | Except.error e => (Except.error (handleAuthError e), { st with loading := false })
      | Except.ok _ =>
        let userData : UserData :=
          { uid := user.uid, email := jsOr user.email "", displayName := displayName,
            role := "user", createdAt := now, lastLoginAt := now,
            emailVerified := false, photoURL := none, provider := some "email" }
        match env.saveResult with
        | Except.error e => (Except.error (handleAuthError e), { st with loading := false })
        | Except.ok _ =>
          (Except.ok (), { st with
              loading := false,
              directory := dirSet st.directory user.uid userData,
              currentUser := some userData })

/-- Outcomes of the external calls made by signIn. -/
structure SignInEnv where
  signInResult : Except JsError FirebaseUser
  updateLastLoginFails : Bool
  getUserDataFails : Bool
deriving DecidableEq

/-- AuthService.signIn: verify credentials, best-effort refresh of the
last-login timestamp, fetch the directory record (read failure is caught
and yields null); when a record is found, refresh its lastLoginAt and
emailVerified and republish it, otherwise leave the session untouched.
Credential failure is translated; loading=false on every exit path. -/
def signIn (env : SignInEnv) (_email _password : String) (now : Nat)
    (st : AuthState) : Except AuthError Unit × AuthState :=
  match env.signInResult with
  | Except.error e => (Except.error (handleAuthError e), { st with loading := false })
  | Except.ok user =>
    let dir := updateLastLogin env.updateLastLoginFails st.directory user.uid now
    match (if env.getUserDataFails then none else dirGet dir user.uid) with
    | some ud =>
      let ud := { ud with lastLoginAt := now, emailVerified := user.emailVerified }
      (Except.ok (), { st with loading := false, directory := dir, currentUser := some ud })
    | none => (Except.ok (), { st with loading := false, directory := dir })

/-- Outcomes of the external calls made by the social sign-in flows. -/
structure SocialEnv where
  popupResult : Except JsError FirebaseUser
  getUserDataFails : Bool
  updateLastLoginFails : Bool
  saveResult : Except JsError Unit
deriving DecidableEq

/-- Shared body of signInWithGoogle and signInWithFacebook: interactive
popup sign-in; if no record exists for the identifier, synthesize and
persist one (role "user", provider tag, emailVerified mirrored from the
provider), otherwise refresh last-login and emailVerified; publish. -/
def signInWithSocial (providerTag : String) (env : SocialEnv) (now : Nat)
    (st : AuthState) : Except AuthError Unit × AuthState :=
  match env.popupResult with
  | Except.error e => (Except.error (handleAuthError e), { st with loading := false })
  | Except.ok user =>
    match (if env.getUserDataFails then none else dirGet st.directory user.uid) with
    | none =>
      let userData : UserData :=
        { uid := user.uid, email := jsOr user.email "",
          displayName := jsOr user.displayName "User", role := "user",
          createdAt := now, lastLoginAt := now, emailVerified := user.emailVerified,
          photoURL := jsOrNull user.photoURL, provider := some providerTag }
      match env.saveResult with
      | Except.error e => (Except.error (handleAuthError e), { st with loading := false })
      | Except.ok _ =>
        (Except.ok (), { st with
            loading := false,
            directory := dirSet st.directory user.uid userData,
            currentUser := some userData })
    | some ud =>
      let dir := updateLastLogin env.updateLastLoginFails st.directory user.uid now
      let ud := { ud with lastLoginAt := now, emailVerified := user.emailVerified }
      (Except.ok (), { st with loading := false, directory := dir, currentUser := some ud })

/-- AuthService.signInWithGoogle. -/
def signInWithGoogle (env : SocialEnv) (now : Nat) (st : AuthState) :
    Except AuthError Unit × AuthState :=
  signInWithSocial "google" env now st

/-- AuthService.signInWithFacebook. -/
def signInWithFacebook (env : SocialEnv) (now : Nat) (st : AuthState) :
    Except AuthError Unit × AuthState :=
  signInWithSocial "facebook" env now st

/-- Provider-side outcome of the reload call inside checkEmailVerification:
whether the re-read fails, and the live emailVerified flag it reports. -/
structure CheckEnv where
  reloadFails : Bool
  liveVerified : Bool
deriving DecidableEq

/-- AuthService.checkEmailVerification: when a provider-side current user
exists, reload its live identity state; if it is now verified, patch
emailVerified=true into the users collection, refresh the published
session in place, and return true; otherwise return false. With no
current user, return false. reload/updateDoc rejections propagate raw
(the function has no try block of its own). -/
def checkEmailVerification (providerUser : Option FirebaseUser) (env : CheckEnv)
    (st : AuthState) : Except String Bool × AuthState :=
  match providerUser with
  | none => (Except.ok false, st)
  | some user =>
    if env.reloadFails then (Except.error "auth/network-request-failed", st)
    else
      let isVerified := env.liveVerified
      if isVerified then
        match updateDocEmailVerified st.directory user.uid with
        | Except.error e => (Except.error e, st)
        | Except.ok dir =>
          let st1 : AuthState := { st with directory := dir }
          let st2 : AuthState :=
            match st1.currentUser with
            | some cu => { st1 with currentUser := some { cu with emailVerified := true } }
            | none => st1
          (Except.ok true, st2)
      else (Except.ok false, st)

/-- The browser interval scheduler: a fresh handle per setInterval call
(handles start at 1, so every issued handle is truthy) and the set of
currently scheduled intervals. -/
structure Scheduler where
  nextId : Nat
  active : List Nat
deriving DecidableEq

/-- setInterval: returns a fresh handle and schedules it. -/
def Scheduler.setInterval (s : Scheduler) : Nat × Scheduler :=
  (s.nextId, { nextId := s.nextId + 1, active := s.nextId :: s.active })

/-- clearInterval on a handle. -/
def Scheduler.clearInterval (s : Scheduler) (id : Nat) : Scheduler :=
  { s with active := s.active.filter (fun i => i ≠ id) }

/-- Poller-visible state: the emailVerificationCheckInterval handle field
of the service together with the scheduler. -/
structure PollerState where
  emailVerificationCheckInterval : Option Nat
  sched : Scheduler
deriving DecidableEq

/-- A poller that has never been started. -/
def pollerInit : PollerState :=
  { emailVerificationCheckInterval := none, sched := { nextId := 1, active := [] } }

/-- AuthService.startEmailVerificationCheck: unconditionally schedules a
new interval and stores its handle, overwriting whatever the field held. -/
def startEmailVerificationCheck (p : PollerState) : PollerState :=
  let r := p.sched.setInterval
  { emailVerificationCheckInterval := some r.1, sched := r.2 }

/-- AuthService.stopEmailVerificationCheck: when the stored handle is
truthy, clear that interval and null the field; otherwise do nothing. -/
def stopEmailVerificationCheck (p : PollerState) : PollerState :=
  match p.emailVerificationCheckInterval with
  | some id => { emailVerificationCheckInterval := none, sched := p.sched.clearInterval id }
  | none => p

/-- AuthService.signOut: stop the verification-check timer, then invoke
provider sign-out; on success clear the published session and navigate to
login; on failure throw the translated error, leaving the session as it
was (the timer is stopped either way, since stopping precedes the
provider call). -/
def signOut (signOutResult : Except JsError Unit) (st : AuthState)
    (p : PollerState) : Except AuthError Unit × AuthState × PollerState × Option Nav :=
  let p1 := stopEmailVerificationCheck p
  match signOutResult with
  | Except.error e => (Except.error (handleAuthError e), st, p1, none)
  | Except.ok _ =>
    (Except.ok (), { st with currentUser := none }, p1, some (Nav.login none))

/-- AuthGuard.canActivate over a session snapshot: allow a present session
unless it is an unverified email-provider user (redirect to verify-email);
with no session, redirect to login carrying the requested URL. -/
def authGuardCanActivate (user : Option UserData) (stateUrl : String) :
    Bool × Option Nav :=
  match user with
  | some u =>
    if ¬ u.emailVerified ∧ u.provider = some "email" then (false, some Nav.verifyEmail)
    else (true, none)
  | none => (false, some (Nav.login (some stateUrl)))

/-- GuestGuard.canActivate over a session snapshot: allow only when no
session is present; a present session is redirected to verify-email when
unverified with provider "email", otherwise to the dashboard. -/
def guestGuardCanActivate (user : Option UserData) : Bool × Option Nav :=
  match user with
  | some u =>
    if ¬ u.emailVerified ∧ u.provider = some "email" then (false, some Nav.verifyEmail)
    else (false, some Nav.dashboard)
  | none => (true, none)

/-- Component-visible state of the verify-email page: loading flag, error
text, the resend-cooldown counter (an ordinary JS number, hence an Int),
and whether the cooldown interval is scheduled. -/
structure VerifyEmailState where
  loading : Bool
  error : Option String
  resendCooldown : Int
  cooldownActive : Bool
deriving DecidableEq, Repr

/-- VerifyEmailComponent.resendVerificationEmail: rejected up front while
the cooldown is positive or a request is in flight (no service call is
made); otherwise invoke the service send, and on success set the cooldown
to 60 and start the countdown interval. The returned Bool is whether the
send request was dispatched to the provider. -/
def resendVerificationEmail (sendResult : Except AuthError Unit)
    (st : VerifyEmailState) : Bool × VerifyEmailState :=
  if st.resendCooldown > 0 ∨ st.loading then (false, st)
  else
    match sendResult with
    | Except.ok _ =>
      (true, { loading := false, error := none, resendCooldown := 60, cooldownActive := true })
    | Except.error e =>
      (false, { st with loading := false, error := some e.message })

/-- One elapsed second of the cooldown interval: if scheduled, decrement
the counter and clear the interval once the counter has reached zero (or
below); if not scheduled, nothing happens. -/
def cooldownTick (st : VerifyEmailState) : VerifyEmailState :=
  if st.cooldownActive then
    let n := st.resendCooldown - 1
    if n ≤ 0 then { st with resendCooldown := n, cooldownActive := false }
    else { st with resendCooldown := n }
  else st

/-- k elapsed seconds of the cooldown interval. -/
def cooldownTicks : Nat → VerifyEmailState → VerifyEmailState
  | 0, st => st
  | n + 1, st => cooldownTicks n (cooldownTick st)

/-- C1: the verification-check timer is restarted unconditionally: a
second start() while active schedules a second concurrent interval
(claimed to be a no-op leaving exactly one), and the overwritten handle
means stop() can clear only the newer one, orphaning the first. -/
theorem startEmailVerificationCheck_double_start_leaks_timer :
    (startEmailVerificationCheck (startEmailVerificationCheck pollerInit)).sched.active = [2, 1] ∧
    (startEmailVerificationCheck (startEmailVerificationCheck pollerInit)).sched.active.length = 2 ∧
    (stopEmailVerificationCheck
        (startEmailVerificationCheck (startEmailVerificationCheck pollerInit))).sched.active = [1] := by
  decide

/-- C9: with no provider-side current user, checkEmailVerification
returns false and leaves the whole state (directory and published
session included) untouched. -/
theorem checkEmailVerification_no_provider_user_noop
    (env : CheckEnv) (st : AuthState) :
    checkEmailVerification none env st = (Except.ok false, st) := rfl

/-- C4: the Authenticated guard allows exactly when a session is present
and the user is verified or not an email-provider user; a present,
unverified, email-provider session is redirected to verify-email, and an
absent session to login carrying the requested URL. The decision is a
pure function of the snapshot. -/
theorem authGuard_allow_iff_and_redirects
    (user : Option UserData) (u : UserData) (url : String) :
    ((authGuardCanActivate user url).1 = true ↔
       ∃ v, user = some v ∧ (v.emailVerified = true ∨ v.provider ≠ some "email")) ∧
    (authGuardCanActivate none url = (false, some (Nav.login (some url)))) ∧
    (u.emailVerified = true ∨ u.provider ≠ some "email" →
       authGuardCanActivate (some u) url = (true, none)) ∧
    (u.emailVerified = false → u.provider = some "email" →
       authGuardCanActivate (some u) url = (false, some Nav.verifyEmail)) := by
  refine ⟨?_, rfl, ?_, ?_⟩
  · cases user with
    | none => simp [authGuardCanActivate]
    | some v =>
      cases hb : v.emailVerified <;> by_cases hp : v.provider = some "email" <;>
        simp [authGuardCanActivate, hb, hp]
  · intro h
    cases hb : u.emailVerified
    · by_cases hp : u.provider = some "email"
      · rw [hb] at h
        simp [hp] at h
      · simp [authGuardCanActivate, hb, hp]
    · simp [authGuardCanActivate, hb]
  · intro h1 h2
    simp [authGuardCanActivate, h1, h2]

/-- Closed instance of the Authenticated-guard theorem at a concrete
unverified email-provider user. -/
theorem authGuard_allow_iff_and_redirects_witness :
    authGuardCanActivate
        (some { uid := "u1", email := "a@b.com", displayName := "Ann", role := "user",
                createdAt := 0, lastLoginAt := 0, emailVerified := false,
                photoURL := none, provider := some "email" }) "/dashboard"
      = (false, some Nav.verifyEmail) :=
  (authGuard_allow_iff_and_redirects
      (some { uid := "u1", email := "a@b.com", displayName := "Ann", role := "user",
              createdAt := 0, lastLoginAt := 0, emailVerified := false,
              photoURL := none, provider := some "email" })
      { uid := "u1", email := "a@b.com", displayName := "Ann", role := "user",
        createdAt := 0, lastLoginAt := 0, emailVerified := false,
        photoURL := none, provider := some "email" } "/dashboard").2.2.2 rfl rfl

/-- C5: the Guest-only guard allows exactly when no session is present; a
present unverified email-provider session is redirected to verify-email
and any other present session to the dashboard landing page. -/
theorem guestGuard_allow_iff_and_redirects
    (user : Option UserData) (u : UserData) :
    ((guestGuardCanActivate user).1 = true ↔ user = none) ∧
    (guestGuardCanActivate none = (true, none)) ∧
    (u.emailVerified = false → u.provider = some "email" →
       guestGuardCanActivate (some u) = (false, some Nav.verifyEmail)) ∧
    (u.emailVerified = true ∨ u.provider ≠ some "email" →
       guestGuardCanActivate (some u) = (false, some Nav.dashboard)) := by
  refine ⟨?_, rfl, ?_, ?_⟩
  · cases user with
    | none => simp [guestGuardCanActivate]
    | some v =>
      cases hb : v.emailVerified <;> by_cases hp : v.provider = some "email" <;>
        simp [guestGuardCanActivate, hb, hp]
  · intro h1 h2
    simp [guestGuardCanActivate, h1, h2]
  · intro h
    cases hb : u.emailVerified
    · by_cases hp : u.provider = some "email"
      · rw [hb] at h
        simp [hp] at h
      · simp [guestGuardCanActivate, hb, hp]
    · simp [guestGuardCanActivate, hb]

/-- Closed instance of the Guest-only-guard theorem at a concrete
verified google user. -/
theorem guestGuard_allow_iff_and_redirects_witness :
    guestGuardCanActivate
        (some { uid := "u2", email := "g@b.com", displayName := "Gia", role := "user",
                createdAt := 0, lastLoginAt := 0, emailVerified := true,
                photoURL := none, provider := some "google" })
      = (false, some Nav.dashboard) :=
  (guestGuard_allow_iff_and_redirects
      (some { uid := "u2", email := "g@b.com", displayName := "Gia", role := "user",
              createdAt := 0, lastLoginAt := 0, emailVerified := true,
              photoURL := none, provider := some "google" })
      { uid := "u2", email := "g@b.com", displayName := "Gia", role := "user",
        createdAt := 0, lastLoginAt := 0, emailVerified := true,
        photoURL := none, provider := some "google" }).2.2.2 (Or.inl rfl)

/-- C10: signOut stops the verification-check timer before the provider
call (so the timer is stopped on both outcomes); on provider failure it
throws the translated error and the published session keeps its previous
value; only on provider success is the session cleared to null. -/
theorem signOut_spec (res : Except JsError Unit) (st : AuthState) (p : PollerState) :
    ((signOut res st p).2.2.1 = stopEmailVerificationCheck p) ∧
    (∀ e, res = Except.error e →
       (signOut res st p).1 = Except.error (handleAuthError e) ∧
       (signOut res st p).2.1 = st) ∧
    (res = Except.ok () →
       (signOut res st p).1 = Except.ok () ∧
       (signOut res st p).2.1.currentUser = none) := by
  cases res <;> simp [signOut]

/-- Closed instance of the signOut theorem: a failing provider sign-out
leaves a concrete session in place. -/
theorem signOut_spec_witness :
    (signOut (Except.error { code := some "auth/network-request-failed" })
        { currentUser := none, loading := false, directory := [] } pollerInit).2.1
      = { currentUser := none, loading := false, directory := [] } :=
  ((signOut_spec (Except.error { code := some "auth/network-request-failed" })
      { currentUser := none, loading := false, directory := [] } pollerInit).2.1
    { code := some "auth/network-request-failed" } rfl).2

/-- C8: the translator maps each enumerated provider code to its fixed
message (keeping the code), any unmapped code falls back to the generic
message, and a missing code field yields the code "unknown" with the
generic message; the result is always a well-formed AuthError. -/
theorem handleAuthError_spec :
    (handleAuthError { code := none } = { code := "unknown", message := genericMessage }) ∧
    (∀ c, c ∉ mappedCodes → (handleAuthError { code := some c }).message = genericMessage) ∧
    (handleAuthError { code := some "auth/user-not-found" } =
       { code := "auth/user-not-found", message := "No account found with this email address." }) ∧
    (handleAuthError { code := some "auth/wrong-password" } =
       { code := "auth/wrong-password", message := "Incorrect password. Please try again." }) ∧
    (handleAuthError { code := some "auth/email-already-in-use" } =
       { code := "auth/email-already-in-use", message := "An account with this email already exists." }) ∧
    (handleAuthError { code := some "auth/weak-password" } =
       { code := "auth/weak-password", message := "Password should be at least 6 characters long." }) ∧
    (handleAuthError { code := some "auth/invalid-email" } =
       { code := "auth/invalid-email", message := "Please enter a valid email address." }) ∧
    (handleAuthError { code := some "auth/user-disabled" } =
       { code := "auth/user-disabled", message := "This account has been disabled. Please contact support." }) ∧
    (handleAuthError { code := some "auth/too-many-requests" } =
       { code := "auth/too-many-requests", message := "Too many failed attempts. Please try again later." }) ∧
    (handleAuthError { code := some "auth/network-request-failed" } =
       { code := "auth/network-request-failed", message := "Network error. Please check your connection and try again." }) ∧
    (handleAuthError { code := some "auth/popup-closed-by-user" } =
       { code := "auth/popup-closed-by-user", message := "Sign-in was cancelled. Please try again." }) ∧
    (handleAuthError { code := some "auth/cancelled-popup-request" } =
       { code := "auth/cancelled-popup-request", message := "Only one popup request is allowed at a time." }) := by
  refine ⟨rfl, ?_, rfl, rfl, rfl, rfl, rfl, rfl, rfl, rfl, rfl, rfl⟩
  intro c hc
  simp only [mappedCodes, List.mem_cons, List.not_mem_nil, or_false, not_or] at hc
  obtain ⟨h1, h2, h3, h4, h5, h6, h7, h8, h9, h10⟩ := hc
  simp [handleAuthError, authErrorMessage, h1, h2, h3, h4, h5, h6, h7, h8, h9, h10]

/-- Closed instance of the translator theorem: an unmapped provider code
falls back to the generic message. -/
theorem handleAuthError_spec_witness :
    (handleAuthError { code := some "auth/operation-not-allowed" }).message = genericMessage :=
  handleAuthError_spec.2.1 "auth/operation-not-allowed" (by decide)

/-- A patch of the lastLoginAt field misses entirely when no record holds
the uid, mirroring updateDoc rejecting (and being swallowed) there. -/
theorem dirPatchLastLogin_of_missing (dir : Directory) (uid : String) (now : Nat)
    (h : dirGet dir uid = none) : dirPatchLastLogin dir uid now = dir := by
  induction dir with
  | nil => rfl
  | cons p rest ih =>
    simp only [dirGet] at h
    by_cases hp : p.1 = uid
    · simp [hp] at h
    · simp only [dirGet, if_neg hp] at h
      have h2 := ih h
      simp only [dirPatchLastLogin] at h2 ⊢
      simp [hp, h2]

/-- Per-path outcome of signUp: loading is cleared on every exit, success
publishes a session, failure leaves the session untouched. -/
theorem signUp_outcomes (env : SignUpEnv) (e p dn : String) (now : Nat) (st : AuthState) :
    ((signUp env e p dn now st).2.loading = false) ∧
    ((signUp env e p dn now st).1.isOk = true →
       (signUp env e p dn now st).2.currentUser.isSome = true) ∧
    (∀ err, (signUp env e p dn now st).1 = Except.error err →
       (signUp env e p dn now st).2.currentUser = st.currentUser) := by
  obtain ⟨cr, up, sv, sr⟩ := env
  cases cr <;> cases up <;> cases sv <;> cases sr <;> simp [signUp, Except.isOk, Except.toBool, Except.toBool]

/-- Per-path outcome of the shared social sign-in flow: loading cleared
everywhere, success publishes a session, failure leaves it untouched. -/
theorem signInWithSocial_outcomes (tag : String) (env : SocialEnv) (now : Nat) (st : AuthState) :
    ((signInWithSocial tag env now st).2.loading = false) ∧
    ((signInWithSocial tag env now st).1.isOk = true →
       (signInWithSocial tag env now st).2.currentUser.isSome = true) ∧
    (∀ err, (signInWithSocial tag env now st).1 = Except.error err →
       (signInWithSocial tag env now st).2.currentUser = st.currentUser) := by
  obtain ⟨pr, gf, uf, sr⟩ := env
  cases pr with
  | error e => simp [signInWithSocial, Except.isOk, Except.toBool, Except.toBool]
  | ok user =>
    cases hget : (if gf then none else dirGet st.directory user.uid) with
    | none => cases sr <;> simp [signInWithSocial, hget, Except.isOk, Except.toBool, Except.toBool]
    | some ud => simp [signInWithSocial, hget, Except.isOk, Except.toBool, Except.toBool]

/-- Per-path outcome of signIn: loading cleared everywhere; failure keeps
the session; success republishes exactly when the directory fetch after
the last-login patch returns a record, and keeps the prior session value
otherwise. -/
theorem signIn_outcomes (env : SignInEnv) (e p : String) (now : Nat) (st : AuthState) :
    ((signIn env e p now st).2.loading = false) ∧
    (∀ err, (signIn env e p now st).1 = Except.error err →
       (signIn env e p now st).2.currentUser = st.currentUser) ∧
    (∀ user, env.signInResult = Except.ok user →
       ((if env.getUserDataFails then none
         else dirGet (updateLastLogin env.updateLastLoginFails st.directory user.uid now)
                user.uid).isSome = true →
          (signIn env e p now st).2.currentUser.isSome = true) ∧
       ((if env.getUserDataFails then none
         else dirGet (updateLastLogin env.updateLastLoginFails st.directory user.uid now)
                user.uid) = none →
          (signIn env e p now st).2.currentUser = st.currentUser)) := by
  obtain ⟨sr, uf, gf⟩ := env
  cases sr with
  | error err => simp [signIn, Except.isOk, Except.toBool, Except.toBool]
  | ok user =>
    cases gf with
    | true => simp [signIn, Except.isOk, Except.toBool, Except.toBool]
    | false =>
      cases hget : dirGet (updateLastLogin uf st.directory user.uid now) user.uid with
      | none => simp [signIn, Except.isOk, Except.toBool, hget]
      | some ud => simp [signIn, Except.isOk, Except.toBool, hget]

/-- Provider identity used by the concrete counterexample scenarios. -/
def cexUser : FirebaseUser :=
  { uid := "u1", email := some "a@b.com", displayName := some "Ann",
    emailVerified := true, photoURL := none }

/-- signIn environment: credentials verify, directory reads work. -/
def cexSignInEnv : SignInEnv :=
  { signInResult := Except.ok cexUser, updateLastLoginFails := false,
    getUserDataFails := false }

/-- Initial state with no published session and an empty directory. -/
def cexState : AuthState := { currentUser := none, loading := false, directory := [] }

/-- C2 counterexample: a signIn whose credential verification succeeds
but whose directory holds no record completes successfully, yet the
current session stays null afterward — refuting the claim that every
successful call leaves currentSession non-null. -/
theorem signIn_success_with_missing_record_leaves_null_session :
    (signIn cexSignInEnv "a@b.com" "pw" 0 cexState).1 = Except.ok () ∧
    (signIn cexSignInEnv "a@b.com" "pw" 0 cexState).2.currentUser = none ∧
    (signIn cexSignInEnv "a@b.com" "pw" 0 cexState).2.loading = false := by
  refine ⟨rfl, rfl, rfl⟩

/-- C2 (amended): for signUp and both social sign-ins, a successful call
leaves a non-null session; for signIn, a successful call leaves a
non-null session exactly when the directory fetch finds a record, and
otherwise keeps the prior session value; every failed call keeps the
prior session value; loading is false after every call, successful or
failed. -/
theorem authFlows_loading_cleared_and_session_rules
    (suEnv : SignUpEnv) (siEnv : SignInEnv) (gEnv fEnv : SocialEnv)
    (e p dn : String) (now : Nat) (st : AuthState) :
    (((signUp suEnv e p dn now st).2.loading = false) ∧
     ((signUp suEnv e p dn now st).1.isOk = true →
        (signUp suEnv e p dn now st).2.currentUser.isSome = true) ∧
     (∀ err, (signUp suEnv e p dn now st).1 = Except.error err →
        (signUp suEnv e p dn now st).2.currentUser = st.currentUser)) ∧
    (((signInWithGoogle gEnv now st).2.loading = false) ∧
     ((signInWithGoogle gEnv now st).1.isOk = true →
        (signInWithGoogle gEnv now st).2.currentUser.isSome = true) ∧
     (∀ err, (signInWithGoogle gEnv now st).1 = Except.error err →
        (signInWithGoogle gEnv now st).2.currentUser = st.currentUser)) ∧
    (((signInWithFacebook fEnv now st).2.loading = false) ∧
     ((signInWithFacebook fEnv now st).1.isOk = true →
        (signInWithFacebook fEnv now st).2.currentUser.isSome = true) ∧
     (∀ err, (signInWithFacebook fEnv now st).1 = Except.error err →
        (signInWithFacebook fEnv now st).2.currentUser = st.currentUser)) ∧
    (((signIn siEnv e p now st).2.loading = false) ∧
     (∀ err, (signIn siEnv e p now st).1 = Except.error err →
        (signIn siEnv e p now st).2.currentUser = st.currentUser) ∧
     (∀ user, siEnv.signInResult = Except.ok user →
        ((if siEnv.getUserDataFails then none
          else dirGet (updateLastLogin siEnv.updateLastLoginFails st.directory user.uid now)
                 user.uid).isSome = true →
           (signIn siEnv e p now st).2.currentUser.isSome = true) ∧
        ((if siEnv.getUserDataFails then none
          else dirGet (updateLastLogin siEnv.updateLastLoginFails st.directory user.uid now)
                 user.uid) = none →
           (signIn siEnv e p now st).2.currentUser = st.currentUser))) :=
  ⟨signUp_outcomes suEnv e p dn now st,
   signInWithSocial_outcomes "google" gEnv now st,
   signInWithSocial_outcomes "facebook" fEnv now st,
   signIn_outcomes siEnv e p now st⟩

/-- Closed instance of the amended flow theorem: a failed signUp keeps a
concrete (null) session, with loading cleared. -/
theorem authFlows_loading_cleared_and_session_rules_witness :
    (signUp { createResult := Except.error { code := some "auth/email-already-in-use" },
              updateProfileResult := Except.ok (), sendVerificationResult := Except.ok (),
              saveResult := Except.ok () } "a@b.com" "pw" "Ann" 0 cexState).2.currentUser
      = cexState.currentUser :=
  ((authFlows_loading_cleared_and_session_rules
      { createResult := Except.error { code := some "auth/email-already-in-use" },
        updateProfileResult := Except.ok (), sendVerificationResult := Except.ok (),
        saveResult := Except.ok () }
      cexSignInEnv
      { popupResult := Except.ok cexUser, getUserDataFails := false,
        updateLastLoginFails := false, saveResult := Except.ok () }
      { popupResult := Except.ok cexUser, getUserDataFails := false,
        updateLastLoginFails := false, saveResult := Except.ok () }
      "a@b.com" "pw" "Ann" 0 cexState).1.2.2
    (handleAuthError { code := some "auth/email-already-in-use" }) rfl)

/-- C6: when credential verification succeeds but the directory holds no
record for the identifier, signIn completes without throwing and the
session keeps its prior value; when credential verification fails, the
call surfaces exactly the translated AuthError. -/
theorem signIn_missing_record_tolerated (env : SignInEnv) (e p : String)
    (now : Nat) (st : AuthState) :
    (∀ user, env.signInResult = Except.ok user → dirGet st.directory user.uid = none →
       signIn env e p now st = (Except.ok (), { st with loading := false })) ∧
    (∀ err, env.signInResult = Except.error err →
       signIn env e p now st = (Except.error (handleAuthError err), { st with loading := false })) := by
  constructor
  · intro user hok hmiss
    have hdir : updateLastLogin env.updateLastLoginFails st.directory user.uid now
        = st.directory := by
      unfold updateLastLogin
      cases env.updateLastLoginFails
      · simp [dirPatchLastLogin_of_missing st.directory user.uid now hmiss]
      · simp
    cases hgf : env.getUserDataFails <;>
      simp [signIn, hok, hdir, hmiss, hgf]
  · intro err herr
    simp [signIn, herr]

/-- Closed instance of the C6 theorem: concrete successful credentials
with an empty directory produce a non-throwing call that leaves the state
unchanged apart from the cleared loading flag. -/
theorem signIn_missing_record_tolerated_witness :
    signIn cexSignInEnv "a@b.com" "pw" 0 cexState
      = (Except.ok (), { cexState with loading := false }) :=
  (signIn_missing_record_tolerated cexSignInEnv "a@b.com" "pw" 0 cexState).1
    cexUser rfl rfl

/-- Reading back a record after the emailVerified patch sees exactly the
patched value. -/
theorem dirGet_patchVerified (dir : Directory) (uid : String) :
    dirGet (dirPatchVerified dir uid) uid
      = (dirGet dir uid).map (fun ud => { ud with emailVerified := true }) := by
  induction dir with
  | nil => rfl
  | cons q rest ih =>
    by_cases hq : q.1 = uid
    · simp [dirPatchVerified, dirGet, hq]
    · simp only [dirPatchVerified, List.map_cons, if_neg hq] at ih ⊢
      simp [dirGet, hq, ih]

/-- Patching emailVerified twice is the same as patching once. -/
theorem dirPatchVerified_idem (dir : Directory) (uid : String) :
    dirPatchVerified (dirPatchVerified dir uid) uid = dirPatchVerified dir uid := by
  induction dir with
  | nil => rfl
  | cons q rest ih =>
    by_cases hq : q.1 = uid <;>
      simp only [dirPatchVerified, List.map_cons, if_pos, if_neg, hq] at ih ⊢ <;>
      simp [hq, ih]

/-- Shape of a verified check: the result is true, the record is patched
and the published session gets emailVerified set in place. -/
theorem checkEmailVerification_verified_eq (user : FirebaseUser) (env : CheckEnv)
    (st : AuthState) (hrel : env.reloadFails = false) (hlv : env.liveVerified = true)
    (hrec : (dirGet st.directory user.uid).isSome = true) :
    checkEmailVerification (some user) env st =
      (Except.ok true,
       { currentUser := st.currentUser.map (fun cu => { cu with emailVerified := true }),
         loading := st.loading,
         directory := dirPatchVerified st.directory user.uid }) := by
  obtain ⟨cu, ld, dir⟩ := st
  cases cu <;>
    simp [checkEmailVerification, updateDocEmailVerified, hrel, hlv] <;>
    simp_all

/-- C3: checkEmailVerification re-reads the live provider flag; when the
provider now reports verified it writes emailVerified=true to the
directory record, updates the published session in place and returns
true, and a second call right after returns true again while leaving the
state exactly as the first call left it (the second write patches the
same value); when the provider still reports unverified it returns false
and changes nothing. -/
theorem checkEmailVerification_verified_flow (user : FirebaseUser) (env : CheckEnv)
    (st : AuthState) (hrel : env.reloadFails = false)
    (hrec : (dirGet st.directory user.uid).isSome = true) :
    (env.liveVerified = true →
       (checkEmailVerification (some user) env st).1 = Except.ok true ∧
       dirGet (checkEmailVerification (some user) env st).2.directory user.uid
         = (dirGet st.directory user.uid).map (fun ud => { ud with emailVerified := true }) ∧
       (checkEmailVerification (some user) env st).2.currentUser
         = st.currentUser.map (fun cu => { cu with emailVerified := true }) ∧
       checkEmailVerification (some user) env (checkEmailVerification (some user) env st).2
         = (Except.ok true, (checkEmailVerification (some user) env st).2)) ∧
    (env.liveVerified = false →
       checkEmailVerification (some user) env st = (Except.ok false, st)) := by
  constructor
  · intro hlv
    have h1 := checkEmailVerification_verified_eq user env st hrel hlv hrec
    have hrec2 : (dirGet (dirPatchVerified st.directory user.uid) user.uid).isSome = true := by
      rw [dirGet_patchVerified]
      simpa using hrec
    refine ⟨by rw [h1], by rw [h1]; exact dirGet_patchVerified st.directory user.uid,
            by rw [h1], ?_⟩
    rw [h1]
    have h2 := checkEmailVerification_verified_eq user env
      { currentUser := st.currentUser.map (fun cu => { cu with emailVerified := true }),
        loading := st.loading,
        directory := dirPatchVerified st.directory user.uid } hrel hlv hrec2
    rw [h2, dirPatchVerified_idem]
    cases st.currentUser <;> simp
  · intro hlv
    simp [checkEmailVerification, hrel, hlv]

/-- Closed instance of the C3 theorem: a concrete unverified record is
checked right after the provider reports verified. -/
theorem checkEmailVerification_verified_flow_witness :
    (checkEmailVerification (some cexUser) { reloadFails := false, liveVerified := true }
        { currentUser := none, loading := false,
          directory := [("u1", { uid := "u1", email := "a@b.com", displayName := "Ann",
                                 role := "user", createdAt := 0, lastLoginAt := 0,
                                 emailVerified := false, photoURL := none,
                                 provider := some "email" })] }).1
      = Except.ok true :=
  ((checkEmailVerification_verified_flow cexUser
      { reloadFails := false, liveVerified := true }
      { currentUser := none, loading := false,
        directory := [("u1", { uid := "u1", email := "a@b.com", displayName := "Ann",
                               role := "user", createdAt := 0, lastLoginAt := 0,
                               emailVerified := false, photoURL := none,
                               provider := some "email" })] }
      rfl (by decide)).1 rfl).1

/-- Iterated ticks peel off the back as well as the front. -/
theorem cooldownTicks_succ_last (n : Nat) (st : VerifyEmailState) :
    cooldownTicks (n + 1) st = cooldownTick (cooldownTicks n st) := by
  induction n generalizing st with
  | zero => rfl
  | succ m ih =>
    show cooldownTicks (m + 1) (cooldownTick st) = _
    rw [ih (cooldownTick st)]
    rfl

/-- While more seconds remain than have elapsed, each elapsed second just
decrements the armed counter. -/
theorem cooldownTicks_counting (k : Nat) (c : Int) (l : Bool) (e : Option String)
    (h : (k : Int) < c) :
    cooldownTicks k { loading := l, error := e, resendCooldown := c, cooldownActive := true }
      = { loading := l, error := e, resendCooldown := c - k, cooldownActive := true } := by
  induction k generalizing c with
  | zero => simp [cooldownTicks]
  | succ m ih =>
    have hc1 : ¬ (c - 1 ≤ 0) := by omega
    have hm : (m : Int) < c - 1 := by
      push_cast at h ⊢
      omega
    show cooldownTicks m (cooldownTick _) = _
    rw [show cooldownTick { loading := l, error := e, resendCooldown := c, cooldownActive := true }
          = { loading := l, error := e, resendCooldown := c - 1, cooldownActive := true } by
        simp [cooldownTick, hc1]]
    rw [ih (c - 1) hm]
    congr 1
    push_cast
    omega

/-- A cleared cooldown interval never moves the state again. -/
theorem cooldownTicks_inactive (m : Nat) (st : VerifyEmailState)
    (h : st.cooldownActive = false) : cooldownTicks m st = st := by
  induction m with
  | zero => rfl
  | succ n ih =>
    show cooldownTicks n (cooldownTick st) = st
    rw [show cooldownTick st = st by simp [cooldownTick, h]]
    exact ih

/-- C7: a successful resend from an idle, non-loading state dispatches
the email and arms the cooldown at 60; each elapsed second decrements it,
and for the whole 60 seconds of counting every further resend request is
rejected with no dispatch and no state change; at the 60th second the
counter reads exactly 0 and the interval is cleared (so the counter is
floored at 0 forever after), and a new resend is then permitted. -/
theorem resendCooldown_spec (st : VerifyEmailState)
    (h1 : st.resendCooldown ≤ 0) (h2 : st.loading = false) :
    ((resendVerificationEmail (Except.ok ()) st).1 = true) ∧
    ((resendVerificationEmail (Except.ok ()) st).2
       = { loading := false, error := none, resendCooldown := 60, cooldownActive := true }) ∧
    (∀ k, k < 60 →
       cooldownTicks k (resendVerificationEmail (Except.ok ()) st).2
         = { loading := false, error := none, resendCooldown := 60 - (k : Int),
             cooldownActive := true } ∧
       ∀ r, resendVerificationEmail r (cooldownTicks k (resendVerificationEmail (Except.ok ()) st).2)
              = (false, cooldownTicks k (resendVerificationEmail (Except.ok ()) st).2)) ∧
    (cooldownTicks 60 (resendVerificationEmail (Except.ok ()) st).2
       = { loading := false, error := none, resendCooldown := 0, cooldownActive := false }) ∧
    (∀ m, cooldownTicks m (cooldownTicks 60 (resendVerificationEmail (Except.ok ()) st).2)
            = cooldownTicks 60 (resendVerificationEmail (Except.ok ()) st).2) ∧
    ((resendVerificationEmail (Except.ok ())
        (cooldownTicks 60 (resendVerificationEmail (Except.ok ()) st).2)).1 = true) := by
  have hcond : ¬ (st.resendCooldown > 0 ∨ st.loading = true) := by
    rw [h2]
    simp
    omega
  have hsend : resendVerificationEmail (Except.ok ()) st
      = (true, { loading := false, error := none, resendCooldown := 60,
                 cooldownActive := true }) := by
    simp only [resendVerificationEmail]
    rw [if_neg hcond]
  have h60 : cooldownTicks 60 (resendVerificationEmail (Except.ok ()) st).2
      = { loading := false, error := none, resendCooldown := 0, cooldownActive := false } := by
    rw [hsend]
    rw [show (60 : Nat) = 59 + 1 from rfl, cooldownTicks_succ_last]
    rw [cooldownTicks_counting 59 60 false none (by omega)]
    simp [cooldownTick]
  refine ⟨by rw [hsend], by rw [hsend], ?_, h60, ?_, ?_⟩
  · intro k hk
    have htk : cooldownTicks k (resendVerificationEmail (Except.ok ()) st).2
        = { loading := false, error := none, resendCooldown := 60 - (k : Int),
            cooldownActive := true } := by
      rw [hsend]
      exact cooldownTicks_counting k 60 false none (by exact_mod_cast hk)
    refine ⟨htk, ?_⟩
    intro r
    rw [htk]
    simp only [resendVerificationEmail]
    rw [if_pos]
    left
    simp
    omega
  · intro m
    rw [h60]
    exact cooldownTicks_inactive m _ rfl
  · rw [h60]
    simp [resendVerificationEmail]

/-- Closed instance of the C7 theorem: a resend 10 seconds after a
successful resend is rejected and changes nothing. -/
theorem resendCooldown_spec_witness :
    resendVerificationEmail (Except.ok ())
        (cooldownTicks 10 (resendVerificationEmail (Except.ok ())
            { loading := false, error := none, resendCooldown := 0,
              cooldownActive := false }).2)
      = (false, cooldownTicks 10 (resendVerificationEmail (Except.ok ())
            { loading := false, error := none, resendCooldown := 0,
              cooldownActive := false }).2) :=
  (((resendCooldown_spec
      { loading := false, error := none, resendCooldown := 0, cooldownActive := false }
      (by decide) rfl).2.2.1 10 (by decide)).2 (Except.ok ()))
